import Mathlib

/-!
# Verification of the yaro-invoice-pro POS/invoicing core

Shallow embedding of the invoice-creation transaction and the read-side
aggregation of the yaro-invoice-pro repository, together with proofs
settling the specification claims about them.

Money amounts (JS numbers, PHP floats, SQL DECIMAL(12,2)) are modelled as
exact rationals; quantities and stock as integers.
-/

namespace YaroInvoice

/-- Whitespace trim, modelling the JS String.trim and PHP trim calls of the
source; written on the character list so that it evaluates inside the
kernel. -/
def trimStr (s : String) : String :=
  ⟨((s.data.dropWhile Char.isWhitespace).reverse.dropWhile Char.isWhitespace).reverse⟩

/-- A cart line item (interface Product in src/src/types/invoice.ts and the
entries of the invoices.products JSON column): an id (the catalog product id,
a local row id, or the sentinel "custom"), a display name, a unit price and a
quantity. -/
structure LineItem where
  id : String
  name : String
  price : ℚ
  quantity : ℤ
deriving DecidableEq, Repr

/-- The tax rate hard-coded as the literal 0.075 in InvoiceForm.calculateTotals
(src/unnamed/part_016) and Invoice.calculate_totals (src/unnamed/part_000). -/
def taxRate : ℚ := 75 / 1000

/-- InvoiceForm.calculateTotals (src/unnamed/part_016 lines 205-213):
subtotal is a reduce of price*quantity over the form's product rows,
tax is subtotal * 0.075 (no rounding), total is subtotal + tax. -/
def calculateTotals (products : List LineItem) : ℚ × ℚ × ℚ :=
  let subtotal := products.foldl (fun sum p => sum + p.price * (p.quantity : ℚ)) 0
  let tax := subtotal * taxRate
  let total := subtotal + tax
  (subtotal, tax, total)

/-- Invoice.calculate_totals (src/unnamed/part_000 lines 235-243, Django):
subtotal = sum(item price * item quantity for item in products),
tax = subtotal * 0.075, total = subtotal + tax; no rounding. -/
def django_calculate_totals (products : List LineItem) : ℚ × ℚ × ℚ :=
  let subtotal := (products.map (fun item => item.price * (item.quantity : ℚ))).sum
  let tax := subtotal * taxRate
  (subtotal, tax, subtotal + tax)

/-- Specification-side subtotal: the sum over the line items of price times
quantity. -/
def subtotalOf (products : List LineItem) : ℚ :=
  (products.map (fun p => p.price * (p.quantity : ℚ))).sum

/-- Specification-side rounding: round to 2 fractional digits with
round-half-up, as required by the spec for the tax computation
(Modelled from the spec; the source applies no rounding). -/
def round2 (x : ℚ) : ℚ := ((⌊x * 100 + 1 / 2⌋ : ℤ) : ℚ) / 100

/-! ## Stock mutation operations -/

/-- public.decrement_stock (src/unnamed/part_002): the Supabase SQL function
sets stock to GREATEST(stock - qty, 0). -/
def decrement_stock (stock qty : ℤ) : ℤ := max (stock - qty) 0

/-- The PHP invoices POST per-item stock update (src/unnamed/part_003 lines
114-124): UPDATE products SET stock = stock - qty WHERE ... AND stock >= qty;
when the guard fails the row is untouched. -/
def phpDeductStock (stock qty : ℤ) : ℤ :=
  if qty ≤ stock then stock - qty else stock

/-- Product.decrement_stock (src/unnamed/part_000 lines 160-174, Django):
decrements and returns True when stock >= quantity, otherwise returns False
leaving stock unchanged. -/
def djangoDecrementStock (stock qty : ℤ) : ℤ × Bool :=
  if qty ≤ stock then (stock - qty, true) else (stock, false)

/-- Product.increment_stock (src/unnamed/part_000 lines 176-179, Django):
unconditional addition. -/
def djangoIncrementStock (stock qty : ℤ) : ℤ := stock + qty

/-- The CreateSale.handleGenerateInvoice stock deduction (src/unnamed/part_012
line 36): update stock to Math.max(currentStock - quantity, 0). -/
def createSaleDeduct (stock qty : ℤ) : ℤ := max (stock - qty) 0

/-! ## Product catalog -/

/-- A products table row (schema in src/unnamed/part_004 lines 56-69). -/
structure Product where
  id : String
  user_id : String
  name : String
  price : ℚ
  stock : ℤ
  category : String
deriving DecidableEq, Repr

/-- The CreateSale.handleGenerateInvoice stock-deduction loop
(src/unnamed/part_012 lines 24-43): for each non-custom line item, read the
product by id and write back Math.max(stock - quantity, 0); a missing product
is skipped. -/
def createSaleDeductAll (items : List LineItem) (ps : List Product) : List Product :=
  items.foldl
    (fun acc item =>
      if item.id = "custom" then acc
      else acc.map (fun p =>
        if p.id = item.id then { p with stock := createSaleDeduct p.stock item.quantity } else p))
    ps

/-- The optional fields of a product-update request
(src/api/products/update.php). -/
structure ProductUpdate where
  name : Option String
  price : Option ℚ
  stock : Option ℤ
  category : Option String
deriving DecidableEq, Repr

/-- Field application of src/api/products/update.php lines 36-62: name and
category are trimmed, price is taken as a float, stock as an integer; no
check is made on the stock value. Absent fields keep the stored value. -/
def applyProductUpdate (p : Product) (u : ProductUpdate) : Product :=
  { p with
    name := (u.name.map trimStr).getD p.name
    price := u.price.getD p.price
    stock := u.stock.getD p.stock
    category := (u.category.map trimStr).getD p.category }

/-- Outcome of the product-update endpoint. -/
inductive UpdateResult where
  | ok (st : List Product) (p : Product)
  | notFound
  | duplicateName
  | noFields
deriving DecidableEq, Repr

/-- src/api/products/update.php: verify the product belongs to the user
(404 otherwise), reject a duplicate name for this user (409), reject an empty
update, then UPDATE ... WHERE id = pid and return the updated row. -/
def updateProductEndpoint (st : List Product) (uid pid : String) (u : ProductUpdate) :
    UpdateResult :=
  match st.find? (fun p => p.id == pid && p.user_id == uid) with
  | none => .notFound
  | some p =>
      if st.any (fun q => q.user_id == uid && u.name.any (fun n => q.name == n) && q.id != pid)
      then .duplicateName
      else if u.name = none ∧ u.price = none ∧ u.stock = none ∧ u.category = none
      then .noFields
      else .ok (st.map (fun q => if q.id == pid then applyProductUpdate q u else q))
        (applyProductUpdate p u)

/-- src/api/products/update.php (POST create product): name required
(empty-string rejected), price defaults to 0, stock defaults to 0 with no
sign check, category defaults to Other; name and category are trimmed. -/
def createProduct (uid pid : String) (name : Option String) (price : Option ℚ)
    (stock : Option ℤ) (category : Option String) : Option Product :=
  if name.getD "" = "" then none
  else some ⟨pid, uid, trimStr (name.getD ""), price.getD 0, stock.getD 0,
    trimStr (category.getD "Other")⟩

/-! ## Invoice assembly (frontend form) -/

/-- A Boolean rendering of the validity test in InvoiceForm.handleSubmit
(src/unnamed/part_016 line 237): non-blank name, positive price, positive
quantity. -/
def isValidItem (p : LineItem) : Bool :=
  trimStr p.name != "" && decide (0 < p.price) && decide (0 < p.quantity)

/-- The interface Invoice of src/src/types/invoice.ts (the creation date is
assigned from the wall clock and left out of the model). -/
structure Invoice where
  id : String
  companyName : String
  companyAddress : String
  companyPhone : String
  customerName : String
  issuerName : String
  products : List LineItem
  subtotal : ℚ
  tax : ℚ
  total : ℚ
deriving DecidableEq, Repr

/-- InvoiceForm.handleSubmit (src/unnamed/part_016 lines 215-270): reject a
blank customer or issuer name; filter the rows down to the valid ones and
reject only when none survives; compute the totals with calculateTotals over
ALL rows (the unfiltered state), and emit the invoice carrying the filtered
rows together with those totals. -/
def handleSubmit (customerName issuerName companyName companyAddress companyPhone
    newId : String) (products : List LineItem) : Option Invoice :=
  if trimStr customerName = "" then none
  else if trimStr issuerName = "" then none
  else
    let validProducts := products.filter isValidItem
    if validProducts.isEmpty then none
    else
      let t := calculateTotals products
      some { id := newId, companyName := companyName, companyAddress := companyAddress,
             companyPhone := companyPhone, customerName := customerName,
             issuerName := issuerName, products := validProducts,
             subtotal := t.1, tax := t.2.1, total := t.2.2 }

/-! ## The invoices endpoint (PHP backend) -/

/-- The request body of POST /api/invoices/ (src/unnamed/part_003): subtotal,
tax and total are supplied by the caller and optional. -/
structure InvoiceInput where
  invoice_number : String
  company_name : String
  company_address : Option String
  company_phone : Option String
  customer_name : String
  issuer_name : String
  products : List LineItem
  subtotal : Option ℚ
  tax : Option ℚ
  total : Option ℚ
deriving DecidableEq, Repr

/-- A row of the invoices table (schema in src/unnamed/part_004 lines 72-90;
note the schema has no uniqueness constraint on invoice_number, only the
non-unique INDEX idx_invoice_number). -/
structure StoredInvoice where
  id : String
  user_id : String
  invoice_number : String
  company_name : String
  company_address : Option String
  company_phone : Option String
  customer_name : String
  issuer_name : String
  subtotal : ℚ
  tax : ℚ
  total : ℚ
  products : List LineItem
deriving DecidableEq, Repr

/-- The database state the invoices endpoint touches. -/
structure DB where
  products : List Product
  invoices : List StoredInvoice
deriving DecidableEq, Repr

/-- The required-field test of the POST handler (src/unnamed/part_003 lines
96-105): each of invoice_number, company_name, customer_name, issuer_name and
products must be non-empty. -/
def requiredPresent (i : InvoiceInput) : Bool :=
  i.invoice_number != "" && i.company_name != "" && i.customer_name != "" &&
    i.issuer_name != "" && !i.products.isEmpty

/-- One iteration of the stock-deduction loop (src/unnamed/part_003 lines
112-132): UPDATE products SET stock = stock - qty WHERE id = ? AND
user_id = ? AND stock >= qty. A row count of zero (missing product or
insufficient stock) is ignored: the branch in the source is empty. -/
def deductOne (uid : String) (item : LineItem) (ps : List Product) : List Product :=
  ps.map (fun p =>
    if p.id = item.id ∧ p.user_id = uid ∧ item.quantity ≤ p.stock
    then { p with stock := p.stock - item.quantity } else p)

/-- The full stock-deduction loop: items whose id is empty or the sentinel
"custom" are skipped. -/
def deductAll (uid : String) (items : List LineItem) (ps : List Product) : List Product :=
  items.foldl
    (fun acc item => if item.id ≠ "" ∧ item.id ≠ "custom" then deductOne uid item acc else acc)
    ps

/-- Outcome of POST /api/invoices/. -/
inductive PostResult where
  | committed (db : DB) (inv : StoredInvoice)
  | validationError (msg : String)
deriving DecidableEq, Repr

/-- True exactly on the committed outcome. -/
def PostResult.isCommitted : PostResult → Bool
  | .committed _ _ => true
  | .validationError _ => false

/-- POST /api/invoices/ (src/unnamed/part_003 lines 91-170): validate the
required fields, run the stock-deduction loop, and insert the invoice with
subtotal, tax and total taken verbatim from the request (each defaulting to 0
when absent). No duplicate-invoice-number check is performed and the totals
are not recomputed from the products. -/
def invoicesPost (db : DB) (uid newId : String) (input : InvoiceInput) : PostResult :=
  if input.invoice_number = "" then .validationError "invoice_number is required"
  else if input.company_name = "" then .validationError "company_name is required"
  else if input.customer_name = "" then .validationError "customer_name is required"
  else if input.issuer_name = "" then .validationError "issuer_name is required"
  else if input.products.isEmpty then .validationError "At least one product is required"
  else
    let newProducts := deductAll uid input.products db.products
    let inv : StoredInvoice :=
      { id := newId, user_id := uid, invoice_number := input.invoice_number,
        company_name := input.company_name, company_address := input.company_address,
        company_phone := input.company_phone, customer_name := input.customer_name,
        issuer_name := input.issuer_name, subtotal := input.subtotal.getD 0,
        tax := input.tax.getD 0, total := input.total.getD 0, products := input.products }
    .committed { products := newProducts, invoices := db.invoices ++ [inv] } inv

/-! ## Invoice deletion -/

/-- Outcome of DELETE /api/invoices/delete.php. -/
inductive DeleteResult where
  | ok (db : DB)
  | notFound
deriving DecidableEq, Repr

/-- The state after a delete: the new state on success, the old one on a 404. -/
def DeleteResult.dbAfter (db : DB) : DeleteResult → DB
  | .ok db' => db'
  | .notFound => db

/-- The delete-invoice endpoint (src/unnamed/part_004 lines 21-38): verify the
invoice belongs to the user, then DELETE FROM invoices WHERE id = ?. Only the
invoices table is touched. -/
def deleteInvoice (db : DB) (uid invoiceId : String) : DeleteResult :=
  if db.invoices.any (fun inv => inv.id == invoiceId && inv.user_id == uid)
  then .ok { db with invoices := db.invoices.filter (fun inv => inv.id != invoiceId) }
  else .notFound

/-- History.handleDelete (src/unnamed/part_011 lines 129-138): a delete on the
invoices table filtered by id; no other table is touched. -/
def historyDelete (db : DB) (invoiceId : String) : DB :=
  { db with invoices := db.invoices.filter (fun inv => inv.id != invoiceId) }

/-! ## Tax aggregation (src/api/stats/tax.php) -/

/-- The fields of an invoice row the tax endpoint reads; the month index
(0 = January) stands for the month extracted from created_at. -/
structure TaxRow where
  subtotal : ℚ
  tax : ℚ
  month : Fin 12
deriving DecidableEq, Repr

/-- One monthly bucket of the tax report. -/
structure MonthBucket where
  month : String
  tax : ℚ
  sales : ℚ
  invoiceCount : ℕ
deriving DecidableEq, Repr

/-- The month labels of src/api/stats/tax.php lines 30-33. -/
def monthNames : List String :=
  ["Jan", "Feb", "Mar", "Apr", "May", "Jun", "Jul", "Aug", "Sep", "Oct", "Nov", "Dec"]

/-- The initial monthly map (src/api/stats/tax.php lines 35-43): one
zero-valued bucket per month. -/
def initMonthly : Fin 12 → MonthBucket :=
  fun m => { month := monthNames.getD m "", tax := 0, sales := 0, invoiceCount := 0 }

/-- One iteration of the aggregation loop (src/api/stats/tax.php lines 59-81):
add the invoice's tax and subtotal to its month's bucket and bump the count. -/
def addRow (acc : Fin 12 → MonthBucket) (r : TaxRow) : Fin 12 → MonthBucket :=
  Function.update acc r.month
    { acc r.month with
      tax := (acc r.month).tax + r.tax
      sales := (acc r.month).sales + r.subtotal
      invoiceCount := (acc r.month).invoiceCount + 1 }

/-- The monthlyData array of the response (array_values over the month map,
in Jan..Dec order). -/
def monthlyData (invoices : List TaxRow) : List MonthBucket :=
  (List.finRange 12).map (invoices.foldl addRow initMonthly)

/-- The tax accumulated for one month: sum over the rows of that month. -/
def monthTax (l : List TaxRow) (m : Fin 12) : ℚ :=
  ((l.filter (fun r => r.month == m)).map TaxRow.tax).sum

/-- The sales accumulated for one month. -/
def monthSales (l : List TaxRow) (m : Fin 12) : ℚ :=
  ((l.filter (fun r => r.month == m)).map TaxRow.subtotal).sum

/-- The invoice count for one month. -/
def monthCount (l : List TaxRow) (m : Fin 12) : ℕ :=
  (l.filter (fun r => r.month == m)).length

/-! ## Period comparison (src/unnamed/part_013) -/

/-- Number(x.toFixed(1)): one fractional digit. -/
def toFixed1 (x : ℚ) : ℚ := ((⌊x * 10 + 1 / 2⌋ : ℤ) : ℚ) / 10

/-- The weeklyChange / monthlyChange computation of Analysis
(src/unnamed/part_013 lines 54-60): when the previous total is positive the
relative change is computed (displayed to one fractional digit); otherwise
the literal 100 when the current total is positive and the literal 0 when it
is not. No division by zero occurs. -/
def percentChange (lastTotal thisTotal : ℚ) : ℚ :=
  if 0 < lastTotal then toFixed1 ((thisTotal - lastTotal) / lastTotal * 100)
  else if 0 < thisTotal then 100 else 0

/-! ## Concrete scenario data -/

/-- The Scenario B product: stock 2, price 1000. -/
def productP : Product :=
  { id := "p1", user_id := "u1", name := "Widget", price := 1000, stock := 2,
    category := "Other" }

/-- The Scenario B cart line: quantity 5 of productP. -/
def itemP5 : LineItem := { id := "p1", name := "Widget", price := 1000, quantity := 5 }

/-- The Scenario B request, with the totals the form computes for quantity 5
at price 1000. -/
def scenarioBInput : InvoiceInput :=
  { invoice_number := "INV-001", company_name := "PURE TRUST TPS",
    company_address := none, company_phone := none, customer_name := "Cust",
    issuer_name := "Iss", products := [itemP5], subtotal := some 5000,
    tax := some 375, total := some 5375 }

/-- A stored invoice numbered INV-77, already present for owner u1. -/
def existingInvoice : StoredInvoice :=
  { id := "i0", user_id := "u1", invoice_number := "INV-77",
    company_name := "PURE TRUST TPS", company_address := none,
    company_phone := none, customer_name := "Old", issuer_name := "Iss",
    subtotal := 100, tax := 15 / 2, total := 215 / 2, products := [] }

/-- A product with stock 5 for the duplicate-number scenario. -/
def productQ : Product :=
  { id := "q1", user_id := "u1", name := "Gadget", price := 700, stock := 5,
    category := "Other" }

/-- The cart line of the duplicate-number scenario: 3 of productQ. -/
def itemQ3 : LineItem := { id := "q1", name := "Gadget", price := 700, quantity := 3 }

/-- A request reusing the existing invoice number INV-77 and buying 3 of
productQ. -/
def duplicateInput : InvoiceInput :=
  { invoice_number := "INV-77", company_name := "PURE TRUST TPS",
    company_address := none, company_phone := none, customer_name := "New",
    issuer_name := "Iss", products := [itemQ3], subtotal := some 2100,
    tax := some (315 / 2), total := some (4515 / 2) }

/-- The database for the duplicate-number scenario. -/
def dupDB : DB := { products := [productQ], invoices := [existingInvoice] }

/-- A valid cart row: one cable at 1. -/
def itemCable : LineItem := { id := "a1", name := "Cable", price := 1, quantity := 1 }

/-- A row with an empty name (invalid) but a non-zero amount. -/
def itemNoName : LineItem := { id := "b1", name := "", price := 100, quantity := 1 }

/-- A row with price 0 (invalid). -/
def itemFree : LineItem := { id := "c1", name := "Freebie", price := 0, quantity := 3 }

/-- A custom line item: one repair at 10. -/
def itemRepair : LineItem := { id := "custom", name := "Repair", price := 10, quantity := 1 }

/-- A request whose declared totals disagree with its single 10-at-1 item. -/
def mismatchedInput : InvoiceInput :=
  { invoice_number := "INV-900", company_name := "PURE TRUST TPS",
    company_address := none, company_phone := none, customer_name := "Cust",
    issuer_name := "Iss", products := [itemRepair], subtotal := some 999,
    tax := some 1, total := some 5 }

/-- A product row for the negative-stock update scenario. -/
def productR : Product :=
  { id := "r1", user_id := "u1", name := "Bolt", price := 5, stock := 2,
    category := "Other" }

/-- An update request carrying a negative stock value. -/
def negativeStockUpdate : ProductUpdate :=
  { name := none, price := none, stock := some (-5), category := none }

/-- Two tax rows in different months, for the permutation witness. -/
def taxRowJan : TaxRow := { subtotal := 200, tax := 15, month := 0 }

/-- A tax row in March. -/
def taxRowMar : TaxRow := { subtotal := 40, tax := 3, month := 2 }

/-! ## Helper lemmas -/

/-- A foldl that only accumulates additions equals the accumulator plus the
sum of the mapped list. -/
theorem foldl_add_eq_sum (f : LineItem → ℚ) :
    ∀ (l : List LineItem) (a : ℚ),
      l.foldl (fun s p => s + f p) a = a + (l.map f).sum := by
  intro l
  induction l with
  | nil => intro a; simp
  | cons x xs ih =>
      intro a
      simp only [List.foldl_cons, List.map_cons, List.sum_cons, ih]
      ring

/-- calculateTotals in closed form: the subtotal is the sum over all form
rows, the tax is the unrounded product with the rate, the total their sum. -/
theorem calculateTotals_eq (ps : List LineItem) :
    calculateTotals ps =
      (subtotalOf ps, subtotalOf ps * taxRate, subtotalOf ps + subtotalOf ps * taxRate) := by
  unfold calculateTotals subtotalOf
  rw [foldl_add_eq_sum (fun p => p.price * (p.quantity : ℚ))]
  simp

/-! ## C1 -/

/-- C1 (counterexample): the form invoice built from the cart
[Cable 1 at 1, unnamed row 100 at 1] is produced and persisted with
subtotal 101 although its stored line items sum to 1 (the invalid row is
dropped from the items but still priced into the totals), and with
tax 7.575 = 101 x 0.075 unrounded, where rounding half-up to 2 digits would
give 7.58. -/
theorem calculateTotals_not_rounded_counterexample :
    ∃ inv : Invoice,
      handleSubmit "Ada" "Ben" "Co" "Addr" "Ph" "INV-9" [itemCable, itemNoName] = some inv ∧
      inv.subtotal ≠ subtotalOf inv.products ∧
      inv.tax ≠ round2 (inv.subtotal * taxRate) := by
  refine ⟨_, rfl, ?_, ?_⟩
  · show (calculateTotals [itemCable, itemNoName]).1 ≠ subtotalOf [itemCable]
    simp [calculateTotals, subtotalOf, itemCable, itemNoName]
  · show (calculateTotals [itemCable, itemNoName]).2.1 ≠
      round2 ((calculateTotals [itemCable, itemNoName]).1 * taxRate)
    simp [calculateTotals, round2, taxRate, itemCable, itemNoName]
    norm_num

/-- C1 (amended): for every invoice the form submits, the subtotal is the sum
of price times quantity over ALL submitted rows (including rows dropped by
validation), the tax is subtotal times the 7.5% rate with no rounding, and
the total is subtotal plus tax; the Django calculate_totals recomputes the
same unrounded totals over exactly the stored items. -/
theorem invoice_totals_unrounded :
    (∀ (cn isr co ad ph nid : String) (rows : List LineItem) (inv : Invoice),
        handleSubmit cn isr co ad ph nid rows = some inv →
          inv.subtotal = subtotalOf rows ∧
          inv.tax = inv.subtotal * taxRate ∧
          inv.total = inv.subtotal + inv.tax ∧
          inv.products = rows.filter isValidItem) ∧
    (∀ items : List LineItem,
        django_calculate_totals items =
          (subtotalOf items, subtotalOf items * taxRate,
            subtotalOf items + subtotalOf items * taxRate)) := by
  constructor
  · intro cn isr co ad ph nid rows inv h
    simp only [handleSubmit] at h
    split at h
    · exact Option.noConfusion h
    split at h
    · exact Option.noConfusion h
    split at h
    · exact Option.noConfusion h
    rw [Option.some.injEq] at h
    subst h
    refine ⟨?_, ?_, ?_, rfl⟩ <;> simp [calculateTotals_eq]
  · intro items
    simp [django_calculate_totals, subtotalOf]

/-- C1 (witness): the amended characterization applied to a concrete
one-item cart. -/
theorem invoice_totals_unrounded_witness :
    ∃ inv : Invoice,
      handleSubmit "Ada" "Ben" "Co" "Addr" "Ph" "INV-8" [itemCable] = some inv ∧
      inv.tax = inv.subtotal * taxRate := by
  refine ⟨_, rfl, ?_⟩
  exact (invoice_totals_unrounded.1 "Ada" "Ben" "Co" "Addr" "Ph" "INV-8" [itemCable] _ rfl).2.1

/-! ## C2 -/

/-- C2 (counterexample): the Supabase decrement_stock function, asked for 5
units with stock 2, mutates the stock to 0 instead of failing and leaving it
at 2. -/
theorem decrement_stock_clamps_counterexample :
    (2 : ℤ) < 5 ∧ decrement_stock 2 5 = 0 ∧ decrement_stock 2 5 ≠ 2 := by
  refine ⟨by decide, ?_, ?_⟩ <;> simp [decrement_stock]

/-- C2 (amended): when the quantity is at most the stock all three
reservation implementations decrement by exactly the quantity; when the
quantity exceeds the stock the PHP conditional update and the Django
decrement_stock fail leaving the stock unchanged, while the Supabase
decrement_stock clamps the stock to 0, mutating it. -/
theorem reserveStock_behaviour (stock qty : ℤ) :
    (qty ≤ stock →
      phpDeductStock stock qty = stock - qty ∧
      djangoDecrementStock stock qty = (stock - qty, true) ∧
      decrement_stock stock qty = stock - qty) ∧
    (stock < qty →
      phpDeductStock stock qty = stock ∧
      djangoDecrementStock stock qty = (stock, false) ∧
      decrement_stock stock qty = 0) := by
  unfold phpDeductStock djangoDecrementStock decrement_stock
  constructor
  · intro h
    rw [if_pos h, if_pos h]
    exact ⟨rfl, rfl, max_eq_left (by omega)⟩
  · intro h
    rw [if_neg (by omega), if_neg (by omega)]
    exact ⟨rfl, rfl, max_eq_right (by omega)⟩

/-- C2 (witness): the amended statement applied at stock 7, quantity 3 and
at stock 3, quantity 8. -/
theorem reserveStock_behaviour_witness :
    phpDeductStock 7 3 = 4 ∧ decrement_stock 3 8 = 0 := by
  constructor
  · rw [((reserveStock_behaviour 7 3).1 (by decide)).1]; decide
  · exact ((reserveStock_behaviour 3 8).2 (by decide)).2.2

/-! ## C3 -/

/-- C3 (counterexample): the product-update endpoint applied to a product
with stock 2 and a request carrying stock -5 succeeds and stores the
negative stock. -/
theorem negative_stock_reachable_counterexample :
    ∃ st' p', updateProductEndpoint [productR] "u1" "r1" negativeStockUpdate = .ok st' p' ∧
      productR.stock = 2 ∧ p'.stock = -5 ∧ p'.stock < 0 := by
  refine ⟨_, _, rfl, ?_, ?_, ?_⟩ <;> decide

/-- C3 (amended): the stock-decrement operations all preserve non-negative
stock (and the Django restock preserves it for non-negative quantities), but
product update and product creation store the supplied stock value with no
sign check, so a negative supplied value makes the stock negative. -/
theorem stock_invariant_per_operation :
    (∀ s q : ℤ, 0 ≤ s →
        0 ≤ decrement_stock s q ∧ 0 ≤ phpDeductStock s q ∧
        0 ≤ (djangoDecrementStock s q).1 ∧ 0 ≤ createSaleDeduct s q ∧
        (0 ≤ q → 0 ≤ djangoIncrementStock s q)) ∧
    (∀ (p : Product) (u : ProductUpdate),
        (applyProductUpdate p u).stock = u.stock.getD p.stock) ∧
    (∀ (uid pid : String) (name : Option String) (price : Option ℚ)
        (stock : Option ℤ) (category : Option String) (p : Product),
        createProduct uid pid name price stock category = some p →
          p.stock = stock.getD 0) := by
  refine ⟨?_, ?_, ?_⟩
  · intro s q hs
    refine ⟨le_max_right _ _, ?_, ?_, le_max_right _ _, ?_⟩
    · unfold phpDeductStock; split <;> omega
    · unfold djangoDecrementStock; split <;> simp <;> omega
    · intro hq; unfold djangoIncrementStock; omega
  · intro p u; rfl
  · intro uid pid name price stock category p h
    unfold createProduct at h
    split at h
    · exact Option.noConfusion h
    rw [Option.some.injEq] at h
    subst h
    rfl

/-- C3 (witness): the amended statement applied to the decrement at stock 2,
quantity 5 and to the negative-stock update request. -/
theorem stock_invariant_per_operation_witness :
    0 ≤ decrement_stock 2 5 ∧
      (applyProductUpdate productR negativeStockUpdate).stock = -5 := by
  constructor
  · exact (stock_invariant_per_operation.1 2 5 (by decide)).1
  · rw [stock_invariant_per_operation.2.1 productR negativeStockUpdate]; decide

/-! ## C4 -/

/-- C4 (counterexample): on the CreateSale client path, submitting the cart
of 5 Widgets against stock 2 applies the clamped decrement Math.max(2-5, 0):
the stock ends at 0, not unchanged at 2. -/
theorem scenarioB_clamped_counterexample :
    (createSaleDeductAll [itemP5] [productP]).map Product.stock = [0] ∧
    (createSaleDeductAll [itemP5] [productP]).map Product.stock ≠ [2] := by
  constructor <;> decide

/-- C4 (amended): submitting the quantity-5 cart against stock 2 commits an
invoice whose subtotal is the caller-computed 5000 for the full quantity 5;
on the PHP endpoint the conditional decrement leaves the stock at 2 (the
insufficient-stock branch is empty, nothing is recorded), while the CreateSale
client path clamps the stock to 0. -/
theorem scenarioB_soft_commit :
    ∃ db' inv,
      invoicesPost { products := [productP], invoices := [] } "u1" "i1" scenarioBInput =
        .committed db' inv ∧
      inv.subtotal = 5000 ∧
      inv.products = [itemP5] ∧
      db'.products.map Product.stock = [2] ∧
      (createSaleDeductAll [itemP5] [productP]).map Product.stock = [0] := by
  refine ⟨_, _, rfl, rfl, rfl, ?_, ?_⟩ <;> decide

/-! ## C5 -/

/-- C5 (counterexample): a request reusing the existing invoice number INV-77
is not rejected: the endpoint commits, decrements the product's stock from 5
to 2, and inserts a second row carrying the same number. -/
theorem duplicate_number_not_rejected_counterexample :
    ∃ db' inv,
      invoicesPost dupDB "u1" "i2" duplicateInput = .committed db' inv ∧
      existingInvoice.invoice_number = duplicateInput.invoice_number ∧
      dupDB.products.map Product.stock = [5] ∧
      db'.products.map Product.stock = [2] ∧
      db'.invoices.map StoredInvoice.invoice_number = ["INV-77", "INV-77"] := by
  refine ⟨_, _, rfl, rfl, ?_, ?_, ?_⟩ <;> decide

/-- C5 (amended): the PHP endpoint performs no duplicate-invoice-number check
and the MySQL schema has no uniqueness constraint: a submission whose number
already exists for the owner still commits, runs the stock deduction, and
appends a second row — the original row is preserved, never overwritten. -/
theorem duplicate_invoice_number_commits (db : DB) (uid newId : String)
    (input : InvoiceInput) (hvalid : requiredPresent input = true)
    (hdup : ∃ inv ∈ db.invoices, inv.invoice_number = input.invoice_number) :
    ∃ db' inv, invoicesPost db uid newId input = .committed db' inv ∧
      db'.products = deductAll uid input.products db.products ∧
      db'.invoices = db.invoices ++ [inv] ∧
      inv.invoice_number = input.invoice_number := by
  simp only [requiredPresent, Bool.and_eq_true, bne_iff_ne, ne_eq,
    Bool.not_eq_true', List.isEmpty_eq_false] at hvalid
  obtain ⟨⟨⟨⟨h1, h2⟩, h3⟩, h4⟩, h5⟩ := hvalid
  unfold invoicesPost
  rw [if_neg h1, if_neg h2, if_neg h3, if_neg h4,
    if_neg (by simp [List.isEmpty_iff]; exact h5)]
  exact ⟨_, _, rfl, rfl, rfl, rfl⟩

/-- C5 (witness): the amended statement applied to the INV-77 duplicate
scenario. -/
theorem duplicate_invoice_number_commits_witness :
    ∃ db' inv, invoicesPost dupDB "u1" "i2" duplicateInput = .committed db' inv ∧
      db'.invoices = dupDB.invoices ++ [inv] := by
  obtain ⟨db', inv, hpost, _, happ, _⟩ :=
    duplicate_invoice_number_commits dupDB "u1" "i2" duplicateInput (by decide)
      ⟨existingInvoice, List.mem_singleton_self _, rfl⟩
  exact ⟨db', inv, hpost, happ⟩

/-! ## C9 -/

/-- The commit decision of the invoices endpoint is exactly the
required-field test. -/
theorem isCommitted_eq_requiredPresent (db : DB) (uid newId : String)
    (input : InvoiceInput) :
    (invoicesPost db uid newId input).isCommitted = requiredPresent input := by
  unfold invoicesPost requiredPresent
  repeat' split
  all_goals simp_all [PostResult.isCommitted]

/-- C9: the endpoint persists subtotal, tax and total exactly as supplied by
the caller (each defaulting to 0 when absent) and stores the submitted items
verbatim; its commit decision is independent of those three fields, so an
invoice whose totals disagree with its items is committed unchanged. -/
theorem totals_persisted_verbatim (db : DB) (uid newId : String)
    (input : InvoiceInput) :
    (∀ db' inv, invoicesPost db uid newId input = .committed db' inv →
        inv.subtotal = input.subtotal.getD 0 ∧ inv.tax = input.tax.getD 0 ∧
        inv.total = input.total.getD 0 ∧ inv.products = input.products) ∧
    (∀ s t tot : Option ℚ,
        (invoicesPost db uid newId
            { input with subtotal := s, tax := t, total := tot }).isCommitted =
          (invoicesPost db uid newId input).isCommitted) := by
  constructor
  · intro db' inv h
    unfold invoicesPost at h
    split at h
    · exact PostResult.noConfusion h
    split at h
    · exact PostResult.noConfusion h
    split at h
    · exact PostResult.noConfusion h
    split at h
    · exact PostResult.noConfusion h
    split at h
    · exact PostResult.noConfusion h
    injection h with hdb hinv
    subst hinv
    exact ⟨rfl, rfl, rfl, rfl⟩
  · intro s t tot
    rw [isCommitted_eq_requiredPresent, isCommitted_eq_requiredPresent]
    rfl

/-- C9 (witness): a request declaring subtotal 999 over a single 10-at-1 item
is committed with the 999 stored as-is. -/
theorem totals_persisted_verbatim_witness :
    ∃ db' inv,
      invoicesPost { products := [], invoices := [] } "u1" "i9" mismatchedInput =
        .committed db' inv ∧
      inv.subtotal = 999 ∧ subtotalOf inv.products = 10 := by
  refine ⟨_, _, rfl, ?_, ?_⟩
  · exact ((totals_persisted_verbatim { products := [], invoices := [] } "u1" "i9"
      mismatchedInput).1 _ _ rfl).1
  · show subtotalOf [itemRepair] = 10
    simp [subtotalOf, itemRepair]

/-! ## C6 -/

/-- C6 (counterexample): the cart [Cable at 1, Freebie at price 0] is accepted
rather than rejected, and the zero-price row is silently dropped from the
invoice's items. -/
theorem invalid_item_dropped_counterexample :
    ∃ inv : Invoice,
      handleSubmit "Ada" "Ben" "Co" "Addr" "Ph" "INV-7" [itemCable, itemFree] = some inv ∧
      inv.products = [itemCable] ∧ itemFree ∉ inv.products := by
  refine ⟨_, rfl, ?_, ?_⟩
  · show [itemCable, itemFree].filter isValidItem = [itemCable]
    decide
  · show itemFree ∉ [itemCable, itemFree].filter isValidItem
    decide

/-- C6 (amended): the form rejects a submission only when the customer or
issuer name is blank or NO line item is valid; otherwise it proceeds with
exactly the valid items, silently dropping every invalid one (the PHP
endpoint checks only that the products array is non-empty). -/
theorem invalid_items_filtered (cn isr co ad ph nid : String) (rows : List LineItem) :
    (handleSubmit cn isr co ad ph nid rows = none ↔
      trimStr cn = "" ∨ trimStr isr = "" ∨ ∀ p ∈ rows, isValidItem p = false) ∧
    (∀ inv, handleSubmit cn isr co ad ph nid rows = some inv →
      ∀ p, p ∈ inv.products ↔ p ∈ rows ∧ isValidItem p = true) := by
  unfold handleSubmit
  by_cases h1 : trimStr cn = ""
  · rw [if_pos h1]
    exact ⟨iff_of_true rfl (Or.inl h1), fun inv h => Option.noConfusion h⟩
  rw [if_neg h1]
  by_cases h2 : trimStr isr = ""
  · rw [if_pos h2]
    exact ⟨iff_of_true rfl (Or.inr (Or.inl h2)), fun inv h => Option.noConfusion h⟩
  rw [if_neg h2]
  by_cases h3 : (rows.filter isValidItem).isEmpty
  · rw [if_pos h3]
    rw [List.isEmpty_iff, List.filter_eq_nil_iff] at h3
    refine ⟨iff_of_true rfl (Or.inr (Or.inr ?_)), fun inv h => Option.noConfusion h⟩
    intro p hp
    simpa using h3 p hp
  · rw [if_neg h3]
    rw [List.isEmpty_iff, List.filter_eq_nil_iff] at h3
    push_neg at h3
    constructor
    · apply iff_of_false
      · intro h
        exact Option.noConfusion h
      · intro h
        rcases h with h | h | h
        · exact h1 h
        · exact h2 h
        · obtain ⟨p, hp, hv⟩ := h3
          have hfalse := h p hp
          rw [hfalse] at hv
          exact Bool.noConfusion hv
    · intro inv h p
      rw [Option.some.injEq] at h
      subst h
      simp [List.mem_filter]

/-- C6 (witness): a cart whose only row has price 0 is rejected, by the
amended characterization. -/
theorem invalid_items_filtered_witness :
    handleSubmit "Ada" "Ben" "Co" "Addr" "Ph" "INV-6" [itemFree] = none :=
  (invalid_items_filtered "Ada" "Ben" "Co" "Addr" "Ph" "INV-6" [itemFree]).1.mpr
    (Or.inr (Or.inr (by decide)))

/-! ## C10 -/

/-- C10: deleting an invoice — via the PHP endpoint or the History page —
leaves the products table, and hence every product's stock, unchanged; the
deletion removes exactly the invoice rows with the requested id. -/
theorem delete_invoice_frame (db : DB) (uid invoiceId : String) :
    ((deleteInvoice db uid invoiceId).dbAfter db).products = db.products ∧
    (historyDelete db invoiceId).products = db.products ∧
    (historyDelete db invoiceId).invoices =
      db.invoices.filter (fun inv => inv.id != invoiceId) := by
  refine ⟨?_, rfl, rfl⟩
  unfold deleteInvoice
  split <;> rfl

/-! ## C8 -/

/-- C8: the period-comparison percent change never divides by zero: with both
totals 0 it is 0, and with previous total 0 and positive current total it is
100. -/
theorem percentChange_zero_safe (current : ℚ) :
    percentChange 0 0 = 0 ∧ (0 < current → percentChange 0 current = 100) := by
  constructor
  · simp [percentChange]
  · intro h
    simp [percentChange, h]

/-- C8 (witness): the zero-division guards at current totals 500 and 0. -/
theorem percentChange_zero_safe_witness :
    percentChange 0 500 = 100 ∧ percentChange 0 0 = 0 :=
  ⟨(percentChange_zero_safe 500).2 (by norm_num), (percentChange_zero_safe 500).1⟩

/-! ## C7 -/

/-- Closed form of the aggregation fold: the bucket of month m accumulates
the filtered sums on top of the accumulator. -/
theorem foldl_addRow_apply :
    ∀ (l : List TaxRow) (acc : Fin 12 → MonthBucket) (m : Fin 12),
      (l.foldl addRow acc) m =
        { month := (acc m).month, tax := (acc m).tax + monthTax l m,
          sales := (acc m).sales + monthSales l m,
          invoiceCount := (acc m).invoiceCount + monthCount l m } := by
  intro l
  induction l with
  | nil =>
      intro acc m
      simp [monthTax, monthSales, monthCount]
  | cons r rs ih =>
      intro acc m
      rw [List.foldl_cons, ih]
      by_cases hm : r.month = m
      · subst hm
        simp only [addRow, Function.update_same]
        simp [monthTax, monthSales, monthCount, List.filter_cons,
          MonthBucket.mk.injEq]
        refine ⟨by ring, by ring, by omega⟩
      · have hne : (r.month == m) = false := by
          simp [hm]
        simp only [addRow]
        rw [Function.update_noteq (fun he => hm he.symm)]
        simp [monthTax, monthSales, monthCount, List.filter_cons, hne]

/-- The per-month tax sum is invariant under permutation of the rows. -/
theorem monthTax_perm {l l' : List TaxRow} (h : l.Perm l') (m : Fin 12) :
    monthTax l m = monthTax l' m :=
  ((h.filter _).map _).sum_eq

/-- The per-month sales sum is invariant under permutation of the rows. -/
theorem monthSales_perm {l l' : List TaxRow} (h : l.Perm l') (m : Fin 12) :
    monthSales l m = monthSales l' m :=
  ((h.filter _).map _).sum_eq

/-- The per-month invoice count is invariant under permutation of the rows. -/
theorem monthCount_perm {l l' : List TaxRow} (h : l.Perm l') (m : Fin 12) :
    monthCount l m = monthCount l' m :=
  (h.filter _).length_eq

/-- C7: the monthly tax breakdown always yields exactly 12 buckets, labelled
Jan through Dec in order (so every month is populated even with no data), and
the result is a pure function of the invoice list that is unchanged under
permutation of the input — in particular identical on repeated runs. -/
theorem monthlyData_twelve_buckets_perm_invariant (l l' : List TaxRow) (h : l.Perm l') :
    (monthlyData l).length = 12 ∧
    (monthlyData l).map MonthBucket.month = monthNames ∧
    monthlyData l = monthlyData l' := by
  refine ⟨?_, ?_, ?_⟩
  · simp [monthlyData]
  · unfold monthlyData
    rw [List.map_map]
    have hmon : ∀ m ∈ List.finRange 12,
        (MonthBucket.month ∘ l.foldl addRow initMonthly) m = (initMonthly m).month := by
      intro m _
      simp [Function.comp_apply, foldl_addRow_apply]
    rw [List.map_congr_left hmon]
    decide
  · unfold monthlyData
    refine List.map_congr_left (fun m _ => ?_)
    rw [foldl_addRow_apply, foldl_addRow_apply, monthTax_perm h, monthSales_perm h,
      monthCount_perm h]

/-- C7 (witness): the breakdown of two concrete rows equals the breakdown of
their transposition. -/
theorem monthlyData_perm_invariant_witness :
    monthlyData [taxRowJan, taxRowMar] = monthlyData [taxRowMar, taxRowJan] :=
  (monthlyData_twelve_buckets_perm_invariant _ _
    (List.Perm.swap taxRowMar taxRowJan [])).2.2

end YaroInvoice


